import Mathlib

/-!
Verification of the TaskQuest pet lifecycle engine (src/taskquest-pet.js).

The JavaScript source mutates one global record (gameData) and one task
list (tasks); we embed every state-mutating function as a pure Lean
function from the state (and, where the source reads Date.now() or the
calendar day, an explicit timestamp or day argument) to the new state.
JavaScript numbers are modelled as rationals, integer counters as Int,
and calendar days (toDateString values) as Int day indices, with the
day obtained from "new Date(Date.now() - 86400000)" modelled as
today - 1.  DOM, audio, particle and localStorage calls are pure
side-effecting sinks and are dropped; everything that touches gameData
or tasks is kept, in source order.
-/

namespace TaskQuest

/-- The gameData record of the source, with each @property of its doc
comment as a field.  achievements is an object used as a set of
unlocked ids, modelled as the list of keys mapped to true (insertion
order). -/
structure GameState where
  level : Int
  xp : ℚ
  totalXP : ℚ
  streak : Int
  lastCompletedDate : Option Int
  totalCompleted : Int
  achievements : List String
  soundEnabled : Bool
  petHappiness : ℚ
  petEnergy : ℚ
  petHunger : ℚ
  petStage : Int
  petLastFed : ℚ
  petLastPet : ℚ
  petHibernating : Bool
  hibernationStartTime : Option ℚ
  petLastUpdate : ℚ
  deriving DecidableEq

/-- A task record as built by addTask. -/
structure Task where
  id : Int
  text : String
  priority : String
  completed : Bool
  xp : ℚ
  deriving DecidableEq

/-- One row of the petEvolutions array. -/
structure Evolution where
  stage : Int
  emoji : String
  name : String
  mood : String
  minLevel : Int
  deriving DecidableEq

/-- The petEvolutions array of the source. -/
def petEvolutions : List Evolution :=
  [ ⟨0, "🥚", "Mysterious Egg", "Waiting to hatch...", 1⟩,
    ⟨1, "🐣", "Baby Chick", "Chirp chirp!", 2⟩,
    ⟨2, "🐥", "Young Bird", "Feeling playful!", 5⟩,
    ⟨3, "🐦", "Teen Bird", "Getting stronger!", 10⟩,
    ⟨4, "🦅", "Mighty Eagle", "Soaring high!", 15⟩,
    ⟨5, "🦜", "Phoenix Master", "Maximum power!", 20⟩,
    ⟨6, "✨🦜✨", "Cosmic Phoenix", "Transcendent!", 25⟩ ]

/-- getPetEvolution: iterate backwards over petEvolutions and return the
first (hence highest) entry whose minLevel does not exceed the level,
falling back to petEvolutions[0]. -/
def getPetEvolution (level : Int) : Evolution :=
  match petEvolutions.reverse.find? (fun e => e.minLevel ≤ level) with
  | some e => e
  | none => ⟨0, "🥚", "Mysterious Egg", "Waiting to hatch...", 1⟩

/-- One row of the achievements configuration array.  The JS field
named type is modelled as an Option String (absent for the plain
task-count achievements). -/
structure Achievement where
  id : String
  name : String
  desc : String
  icon : String
  requirement : Int
  type : Option String
  deriving DecidableEq

/-- The achievements configuration array of the source. -/
def achievements : List Achievement :=
  [ ⟨"first_task", "First Steps", "Complete 1 task", "🌟", 1, none⟩,
    ⟨"task_5", "Getting Started", "Complete 5 tasks", "💪", 5, none⟩,
    ⟨"task_10", "On Fire", "Complete 10 tasks", "🔥", 10, none⟩,
    ⟨"task_25", "Dedicated", "Complete 25 tasks", "🎯", 25, none⟩,
    ⟨"task_50", "Unstoppable", "Complete 50 tasks", "⚡", 50, none⟩,
    ⟨"task_100", "Legend", "Complete 100 tasks", "👑", 100, none⟩,
    ⟨"streak_3", "Habit Former", "3 day streak", "📅", 3, some "streak"⟩,
    ⟨"streak_7", "Week Warrior", "7 day streak", "🗓", 7, some "streak"⟩,
    ⟨"level_5", "Rising Star", "Reach level 5", "🌠", 5, some "level"⟩,
    ⟨"level_10", "Master", "Reach level 10", "🏅", 10, some "level"⟩,
    ⟨"level_15", "Champion", "Reach level 15", "🏆", 15, some "level"⟩,
    ⟨"level_20", "Legendary", "Reach level 20", "✨", 20, some "level"⟩,
    ⟨"pet_lover", "Pet Lover", "Pet your buddy 10 times", "💕", 10, some "pet"⟩ ]

/-- enterHibernation: set the flag, record the start timestamp from
Date.now(), and drop happiness by 30 clamped at 0. -/
def enterHibernation (s : GameState) (now : ℚ) : GameState :=
  { s with petHibernating := true,
           hibernationStartTime := some now,
           petHappiness := max 0 (s.petHappiness - 30) }

/-- wakeFromHibernation: clear the flag and raise happiness by 20
clamped at 100.  The source does not touch hibernationStartTime. -/
def wakeFromHibernation (s : GameState) : GameState :=
  { s with petHibernating := false,
           petHappiness := min 100 (s.petHappiness + 20) }

/-- checkHibernation: enter hibernation when energy is at most 0 and the
pet is awake, then (on the possibly updated state, as the source runs
two sequential if statements) wake when energy is at least 20 and the
pet is hibernating. -/
def checkHibernation (s : GameState) (now : ℚ) : GameState :=
  let s1 := if s.petEnergy ≤ 0 ∧ s.petHibernating = false
            then enterHibernation s now else s
  if 20 ≤ s1.petEnergy ∧ s1.petHibernating = true
  then wakeFromHibernation s1 else s1

/-- petPet: return unchanged inside the 10-second cooldown; otherwise
record petLastPet = now, apply the hibernating branch (energy +5 and
happiness +5, clamped) or the normal branch (happiness +10, clamped),
then run checkHibernation. -/
def petPet (s : GameState) (now : ℚ) : GameState :=
  if now - s.petLastPet < 10000 then s
  else
    let s1 := { s with petLastPet := now }
    let s2 :=
      if s1.petHibernating then
        { s1 with petEnergy := min 100 (s1.petEnergy + 5),
                  petHappiness := min 100 (s1.petHappiness + 5) }
      else
        { s1 with petHappiness := min 100 (s1.petHappiness + 10) }
    checkHibernation s2 now

/-- feedPet: hunger -20 clamped at 0, energy +10 and happiness +5
clamped at 100. -/
def feedPet (s : GameState) : GameState :=
  { s with petHunger := max 0 (s.petHunger - 20),
           petEnergy := min 100 (s.petEnergy + 10),
           petHappiness := min 100 (s.petHappiness + 5) }

/-- boostPetEnergy: energy +15 and happiness +10, clamped at 100. -/
def boostPetEnergy (s : GameState) : GameState :=
  { s with petEnergy := min 100 (s.petEnergy + 15),
           petHappiness := min 100 (s.petHappiness + 10) }

/-- checkPetEvolution: advance petStage to the stage of the current
evolution when it is strictly greater (evolvePet is display-only). -/
def checkPetEvolution (s : GameState) : GameState :=
  let currentEvolution := getPetEvolution s.level
  if s.petStage < currentEvolution.stage
  then { s with petStage := currentEvolution.stage }
  else s

/-- updatePetNeeds: time-scaled stat decay.  The source reads
gameData.petLastUpdate || now; the falsy-number case is modelled by the
explicit comparison with 0.  Nothing happens when fewer than 1 minute
has elapsed.  Otherwise hunger, energy and happiness move linearly in
elapsed hours (with the hibernation rates when hibernating, and the
extra hunger penalty on happiness when the just-updated hunger exceeds
70), petLastUpdate is set to now, and checkHibernation runs. -/
def updatePetNeeds (s : GameState) (now : ℚ) : GameState :=
  let lastUpdate := if s.petLastUpdate = 0 then now else s.petLastUpdate
  let minutesSinceLastUpdate := (now - lastUpdate) / (1000 * 60)
  if 1 ≤ minutesSinceLastUpdate then
    let decayMultiplier := minutesSinceLastUpdate / 60
    let s1 :=
      if s.petHibernating then
        { s with petHunger := min 100 (s.petHunger + 20 * decayMultiplier),
                 petEnergy := max 0 (s.petEnergy - 5 * decayMultiplier),
                 petHappiness := max 0 (s.petHappiness - 15 * decayMultiplier) }
      else
        let sA :=
          { s with petHunger := min 100 (s.petHunger + 20 * decayMultiplier),
                   petEnergy := max 0 (s.petEnergy - 10 * decayMultiplier),
                   petHappiness := max 0 (s.petHappiness - 8 * decayMultiplier) }
        if 70 < sA.petHunger then
          { sA with petHappiness := max 0 (sA.petHappiness - 5 * decayMultiplier) }
        else sA
    checkHibernation { s1 with petLastUpdate := now } now
  else s

/-- getXPForLevel: 100 + (level - 1) * 50. -/
def getXPForLevel (level : Int) : ℚ :=
  100 + ((level : ℚ) - 1) * 50

/-- unlockAchievement: record the id as unlocked and raise happiness by
15, clamped at 100. -/
def unlockAchievement (s : GameState) (a : Achievement) : GameState :=
  { s with achievements := s.achievements ++ [a.id],
           petHappiness := min 100 (s.petHappiness + 15) }

/-- The predicate of checkAchievements: streak-typed achievements test
the streak, level-typed the level, and every other type (including the
pet type) falls through to the totalCompleted comparison. -/
def achievementUnlocked (s : GameState) (a : Achievement) : Bool :=
  if a.type = some "streak" then decide (a.requirement ≤ s.streak)
  else if a.type = some "level" then decide (a.requirement ≤ s.level)
  else decide (a.requirement ≤ s.totalCompleted)

/-- The body of the forEach loop in checkAchievements: skip ids already
unlocked, otherwise unlock when the predicate holds. -/
def achievementStep (s : GameState) (a : Achievement) : GameState :=
  if a.id ∈ s.achievements then s
  else if achievementUnlocked s a then unlockAchievement s a else s

/-- checkAchievements: fold the loop body over the achievements array. -/
def checkAchievements (s : GameState) : GameState :=
  achievements.foldl achievementStep s

/-- levelUp: subtract the XP required for the old level, increment the
level, run checkPetEvolution only inside the every-5-levels milestone
branch, grant happiness +20 and energy +15 (clamped), and run
checkAchievements. -/
def levelUp (s : GameState) : GameState :=
  let s1 := { s with xp := s.xp - getXPForLevel s.level, level := s.level + 1 }
  let s2 := if s1.level % 5 = 0 then checkPetEvolution s1 else s1
  let s3 := { s2 with petHappiness := min 100 (s2.petHappiness + 20),
                      petEnergy := min 100 (s2.petEnergy + 15) }
  checkAchievements s3

/-- addXP: add the amount to xp and totalXP, then run levelUp once when
the new xp reaches the requirement for the current level. -/
def addXP (s : GameState) (amount : ℚ) : GameState :=
  let s1 := { s with xp := s.xp + amount, totalXP := s.totalXP + amount }
  if getXPForLevel s1.level ≤ s1.xp then levelUp s1 else s1

/-- updateStreak: with a prior completion day equal to yesterday the
streak increments; equal to today it is unchanged; any other prior day
resets it to 1; no prior day sets it to 1.  lastCompletedDate always
becomes today, and checkAchievements runs. -/
def updateStreak (s : GameState) (today : Int) : GameState :=
  let s1 :=
    match s.lastCompletedDate with
    | some lastDay =>
        if lastDay = today - 1 then { s with streak := s.streak + 1 }
        else if lastDay ≠ today then { s with streak := 1 }
        else s
    | none => { s with streak := 1 }
  checkAchievements { s1 with lastCompletedDate := some today }

/-- toggleTask: the hibernation guard returns with no mutation.  With
the guard passed, a missing task id makes the source dereference
undefined at the expression reading the completed flag of the found
task, raising a TypeError: that abnormal termination is modelled as
none.  An already-completed task is left alone.  Otherwise the source
marks the task completed, increments totalCompleted, runs addXP with
the stored task xp, updateStreak, checkAchievements, feedPet,
boostPetEnergy and checkHibernation, and finally removes the task by
id (the 500 ms animation delay before removal is collapsed, as the
completed task is filtered from every later read). -/
def toggleTask (s : GameState) (tasks : List Task) (id : Int) (now : ℚ)
    (today : Int) : Option (GameState × List Task) :=
  let task? := tasks.find? (fun t => t.id == id)
  if s.petHibernating then some (s, tasks)
  else
    match task? with
    | none => none
    | some task =>
      if task.completed then some (s, tasks)
      else
        let s1 := { s with totalCompleted := s.totalCompleted + 1 }
        let s2 := addXP s1 task.xp
        let s3 := updateStreak s2 today
        let s4 := checkAchievements s3
        let s5 := feedPet s4
        let s6 := boostPetEnergy s5
        let s7 := checkHibernation s6 now
        some (s7, tasks.filter (fun t => t.id != id))

/-- deleteTask: behind a confirm() dialog (its answer passed as ok),
filter the task out by id with no reward and no hibernation guard. -/
def deleteTask (ok : Bool) (tasks : List Task) (id : Int) : List Task :=
  if ok then tasks.filter (fun t => t.id != id) else tasks

/-- The three decaying pet stats are within their documented 0..100
range. -/
def statsInRange (s : GameState) : Prop :=
  0 ≤ s.petHappiness ∧ s.petHappiness ≤ 100 ∧
  0 ≤ s.petEnergy ∧ s.petEnergy ≤ 100 ∧
  0 ≤ s.petHunger ∧ s.petHunger ≤ 100

instance (s : GameState) : Decidable (statsInRange s) := by
  unfold statsInRange; infer_instance

/-- The default gameData record from the source initializer, with the
three Date.now() timestamps taken at time 0. -/
def initialGameData : GameState :=
  { level := 1, xp := 0, totalXP := 0, streak := 0,
    lastCompletedDate := none, totalCompleted := 0, achievements := [],
    soundEnabled := true, petHappiness := 50, petEnergy := 75,
    petHunger := 30, petStage := 0, petLastFed := 0, petLastPet := 0,
    petHibernating := false, hibernationStartTime := none,
    petLastUpdate := 0 }

/-- A hibernating state used to exercise the wake path: energy already
back at 25 with the start timestamp recorded at time 500. -/
def hibernatingState : GameState :=
  { initialGameData with petHibernating := true,
                         hibernationStartTime := some 500,
                         petEnergy := 25 }

/-- The rows of the achievements array before its last row (every id
other than pet_lover). -/
def nonPetAchievements : List Achievement := achievements.dropLast

/-- The last row of the achievements array: the pet_lover
achievement. -/
def petLoverAchievement : Achievement :=
  ⟨"pet_lover", "Pet Lover", "Pet your buddy 10 times", "💕", 10, some "pet"⟩

/-- Folding preserves any invariant that every step taken from a list
element preserves. -/
theorem foldlPreserves {α β : Type} (P : β → Prop) (f : β → α → β) :
    ∀ (l : List α) (b : β), P b → (∀ x a, a ∈ l → P x → P (f x a)) →
      P (l.foldl f b) := by
  intro l
  induction l with
  | nil => intro b hb _; exact hb
  | cons a t ih =>
      intro b hb hf
      exact ih (f b a) (hf b a (List.mem_cons_self a t) hb)
        (fun x c hc hx => hf x c (List.mem_cons_of_mem a hc) hx)

/-- The fields of gameData that one pass of the achievement loop body
never writes. -/
theorem achievementStep_keeps (s : GameState) (a : Achievement) :
    (achievementStep s a).level = s.level ∧
    (achievementStep s a).xp = s.xp ∧
    (achievementStep s a).totalXP = s.totalXP ∧
    (achievementStep s a).streak = s.streak ∧
    (achievementStep s a).lastCompletedDate = s.lastCompletedDate ∧
    (achievementStep s a).totalCompleted = s.totalCompleted ∧
    (achievementStep s a).petStage = s.petStage ∧
    (achievementStep s a).petEnergy = s.petEnergy ∧
    (achievementStep s a).petHunger = s.petHunger ∧
    (achievementStep s a).petHibernating = s.petHibernating ∧
    (achievementStep s a).petLastUpdate = s.petLastUpdate := by
  unfold achievementStep unlockAchievement
  split_ifs <;> exact ⟨rfl, rfl, rfl, rfl, rfl, rfl, rfl, rfl, rfl, rfl, rfl⟩

/-- The fields of gameData that checkAchievements never writes. -/
theorem checkAchievements_keeps (s : GameState) :
    (checkAchievements s).level = s.level ∧
    (checkAchievements s).xp = s.xp ∧
    (checkAchievements s).totalXP = s.totalXP ∧
    (checkAchievements s).streak = s.streak ∧
    (checkAchievements s).lastCompletedDate = s.lastCompletedDate ∧
    (checkAchievements s).totalCompleted = s.totalCompleted ∧
    (checkAchievements s).petStage = s.petStage ∧
    (checkAchievements s).petEnergy = s.petEnergy ∧
    (checkAchievements s).petHunger = s.petHunger ∧
    (checkAchievements s).petHibernating = s.petHibernating ∧
    (checkAchievements s).petLastUpdate = s.petLastUpdate := by
  unfold checkAchievements
  refine foldlPreserves
    (fun t => t.level = s.level ∧ t.xp = s.xp ∧ t.totalXP = s.totalXP ∧
      t.streak = s.streak ∧ t.lastCompletedDate = s.lastCompletedDate ∧
      t.totalCompleted = s.totalCompleted ∧ t.petStage = s.petStage ∧
      t.petEnergy = s.petEnergy ∧ t.petHunger = s.petHunger ∧
      t.petHibernating = s.petHibernating ∧ t.petLastUpdate = s.petLastUpdate)
    achievementStep achievements s
    ⟨rfl, rfl, rfl, rfl, rfl, rfl, rfl, rfl, rfl, rfl, rfl⟩ ?_
  intro x a _ hx
  obtain ⟨k1, k2, k3, k4, k5, k6, k7, k8, k9, k10, k11⟩ := achievementStep_keeps x a
  exact ⟨k1.trans hx.1, k2.trans hx.2.1, k3.trans hx.2.2.1, k4.trans hx.2.2.2.1,
    k5.trans hx.2.2.2.2.1, k6.trans hx.2.2.2.2.2.1, k7.trans hx.2.2.2.2.2.2.1,
    k8.trans hx.2.2.2.2.2.2.2.1, k9.trans hx.2.2.2.2.2.2.2.2.1,
    k10.trans hx.2.2.2.2.2.2.2.2.2.1, k11.trans hx.2.2.2.2.2.2.2.2.2.2⟩

/-- The fields of gameData that checkHibernation never writes (only the
flag, the start timestamp and happiness can change). -/
theorem checkHibernation_keeps (s : GameState) (now : ℚ) :
    (checkHibernation s now).level = s.level ∧
    (checkHibernation s now).xp = s.xp ∧
    (checkHibernation s now).totalXP = s.totalXP ∧
    (checkHibernation s now).streak = s.streak ∧
    (checkHibernation s now).lastCompletedDate = s.lastCompletedDate ∧
    (checkHibernation s now).totalCompleted = s.totalCompleted ∧
    (checkHibernation s now).petStage = s.petStage ∧
    (checkHibernation s now).petEnergy = s.petEnergy ∧
    (checkHibernation s now).petHunger = s.petHunger ∧
    (checkHibernation s now).achievements = s.achievements ∧
    (checkHibernation s now).petLastUpdate = s.petLastUpdate ∧
    (checkHibernation s now).petLastPet = s.petLastPet := by
  simp only [checkHibernation, enterHibernation, wakeFromHibernation]
  split_ifs <;>
    exact ⟨rfl, rfl, rfl, rfl, rfl, rfl, rfl, rfl, rfl, rfl, rfl, rfl⟩

/-- The fields of gameData that checkPetEvolution never writes (only
petStage can change). -/
theorem checkPetEvolution_keeps (s : GameState) :
    (checkPetEvolution s).level = s.level ∧
    (checkPetEvolution s).xp = s.xp ∧
    (checkPetEvolution s).totalXP = s.totalXP ∧
    (checkPetEvolution s).petHappiness = s.petHappiness ∧
    (checkPetEvolution s).petEnergy = s.petEnergy ∧
    (checkPetEvolution s).petHunger = s.petHunger := by
  simp only [checkPetEvolution]
  split_ifs <;> exact ⟨rfl, rfl, rfl, rfl, rfl, rfl⟩

/-- A clamped increase Math.min(100, x + d) with nonnegative x and d
stays in the range. -/
theorem clampUp (x d : ℚ) (hx : 0 ≤ x) (hd : 0 ≤ d) :
    0 ≤ min 100 (x + d) ∧ min 100 (x + d) ≤ 100 :=
  ⟨le_min (by norm_num) (by linarith), min_le_left _ _⟩

/-- A clamped decrease Math.max(0, x - d) with x at most 100 and
nonnegative d stays in the range. -/
theorem clampDown (x d : ℚ) (hx : x ≤ 100) (hd : 0 ≤ d) :
    0 ≤ max 0 (x - d) ∧ max 0 (x - d) ≤ 100 :=
  ⟨le_max_left _ _, max_le (by norm_num) (by linarith)⟩

/-- feedPet keeps the stats in range. -/
theorem feedPet_range (s : GameState) (h : statsInRange s) :
    statsInRange (feedPet s) := by
  obtain ⟨h1, h2, h3, h4, h5, h6⟩ := h
  obtain ⟨a1, a2⟩ := clampUp s.petHappiness 5 h1 (by norm_num)
  obtain ⟨b1, b2⟩ := clampUp s.petEnergy 10 h3 (by norm_num)
  obtain ⟨c1, c2⟩ := clampDown s.petHunger 20 h6 (by norm_num)
  exact ⟨a1, a2, b1, b2, c1, c2⟩

/-- boostPetEnergy keeps the stats in range. -/
theorem boostPetEnergy_range (s : GameState) (h : statsInRange s) :
    statsInRange (boostPetEnergy s) := by
  obtain ⟨h1, h2, h3, h4, h5, h6⟩ := h
  obtain ⟨a1, a2⟩ := clampUp s.petHappiness 10 h1 (by norm_num)
  obtain ⟨b1, b2⟩ := clampUp s.petEnergy 15 h3 (by norm_num)
  exact ⟨a1, a2, b1, b2, h5, h6⟩

/-- enterHibernation keeps the stats in range. -/
theorem enterHibernation_range (s : GameState) (now : ℚ)
    (h : statsInRange s) : statsInRange (enterHibernation s now) := by
  obtain ⟨h1, h2, h3, h4, h5, h6⟩ := h
  obtain ⟨a1, a2⟩ := clampDown s.petHappiness 30 h2 (by norm_num)
  exact ⟨a1, a2, h3, h4, h5, h6⟩

/-- wakeFromHibernation keeps the stats in range. -/
theorem wakeFromHibernation_range (s : GameState) (h : statsInRange s) :
    statsInRange (wakeFromHibernation s) := by
  obtain ⟨h1, h2, h3, h4, h5, h6⟩ := h
  obtain ⟨a1, a2⟩ := clampUp s.petHappiness 20 h1 (by norm_num)
  exact ⟨a1, a2, h3, h4, h5, h6⟩

/-- checkHibernation keeps the stats in range. -/
theorem checkHibernation_range (s : GameState) (now : ℚ)
    (h : statsInRange s) : statsInRange (checkHibernation s now) := by
  simp only [checkHibernation]
  by_cases h1 : s.petEnergy ≤ 0 ∧ s.petHibernating = false
  · rw [if_pos h1]
    by_cases h2 : 20 ≤ (enterHibernation s now).petEnergy ∧
        (enterHibernation s now).petHibernating = true
    · rw [if_pos h2]
      exact wakeFromHibernation_range _ (enterHibernation_range s now h)
    · rw [if_neg h2]
      exact enterHibernation_range s now h
  · rw [if_neg h1]
    by_cases h2 : 20 ≤ s.petEnergy ∧ s.petHibernating = true
    · rw [if_pos h2]
      exact wakeFromHibernation_range _ h
    · rw [if_neg h2]
      exact h

/-- unlockAchievement keeps the stats in range. -/
theorem unlockAchievement_range (s : GameState) (a : Achievement)
    (h : statsInRange s) : statsInRange (unlockAchievement s a) := by
  obtain ⟨h1, h2, h3, h4, h5, h6⟩ := h
  obtain ⟨a1, a2⟩ := clampUp s.petHappiness 15 h1 (by norm_num)
  exact ⟨a1, a2, h3, h4, h5, h6⟩

/-- One pass of the achievement loop body keeps the stats in range. -/
theorem achievementStep_range (s : GameState) (a : Achievement)
    (h : statsInRange s) : statsInRange (achievementStep s a) := by
  unfold achievementStep
  split_ifs with h1 h2
  · exact h
  · exact unlockAchievement_range s a h
  · exact h

/-- checkAchievements keeps the stats in range. -/
theorem checkAchievements_range (s : GameState) (h : statsInRange s) :
    statsInRange (checkAchievements s) :=
  foldlPreserves statsInRange achievementStep achievements s h
    (fun x a _ hx => achievementStep_range x a hx)

/-- checkPetEvolution keeps the stats in range (it never writes
them). -/
theorem checkPetEvolution_range (s : GameState) (h : statsInRange s) :
    statsInRange (checkPetEvolution s) := by
  simp only [checkPetEvolution]
  split_ifs <;> exact h

/-- The happiness and energy boost a level-up grants keeps the stats in
range. -/
theorem levelUpBoost_range (t : GameState) (h : statsInRange t) :
    statsInRange { t with petHappiness := min 100 (t.petHappiness + 20),
                          petEnergy := min 100 (t.petEnergy + 15) } := by
  obtain ⟨h1, h2, h3, h4, h5, h6⟩ := h
  obtain ⟨a1, a2⟩ := clampUp t.petHappiness 20 h1 (by norm_num)
  obtain ⟨b1, b2⟩ := clampUp t.petEnergy 15 h3 (by norm_num)
  exact ⟨a1, a2, b1, b2, h5, h6⟩

/-- levelUp keeps the stats in range. -/
theorem levelUp_range (s : GameState) (h : statsInRange s) :
    statsInRange (levelUp s) := by
  simp only [levelUp]
  apply checkAchievements_range
  apply levelUpBoost_range
  split
  · exact checkPetEvolution_range _ h
  · exact h

/-- petPet keeps the stats in range. -/
theorem petPet_range (s : GameState) (now : ℚ) (h : statsInRange s) :
    statsInRange (petPet s now) := by
  simp only [petPet]
  split_ifs with h1 h2
  · exact h
  · apply checkHibernation_range
    obtain ⟨g1, g2, g3, g4, g5, g6⟩ := h
    obtain ⟨a1, a2⟩ := clampUp s.petHappiness 5 g1 (by norm_num)
    obtain ⟨b1, b2⟩ := clampUp s.petEnergy 5 g3 (by norm_num)
    exact ⟨a1, a2, b1, b2, g5, g6⟩
  · apply checkHibernation_range
    obtain ⟨g1, g2, g3, g4, g5, g6⟩ := h
    obtain ⟨a1, a2⟩ := clampUp s.petHappiness 10 g1 (by norm_num)
    exact ⟨a1, a2, g3, g4, g5, g6⟩

/-- updatePetNeeds keeps the stats in range. -/
theorem updatePetNeeds_range (s : GameState) (now : ℚ)
    (h : statsInRange s) : statsInRange (updatePetNeeds s now) := by
  obtain ⟨h1, h2, h3, h4, h5, h6⟩ := h
  simp only [updatePetNeeds]
  set lu := (if s.petLastUpdate = 0 then now else s.petLastUpdate) with hlu
  set m := (now - lu) / (1000 * 60) with hm
  set D := m / 60 with hDdef
  split_ifs with hfire hhib hhun
  · apply checkHibernation_range
    have hm0 : (0:ℚ) ≤ m := le_trans (by norm_num) hfire
    have hd : (0:ℚ) ≤ D := by rw [hDdef]; exact div_nonneg hm0 (by norm_num)
    obtain ⟨a1, a2⟩ := clampUp s.petHunger (20 * D) h5
      (mul_nonneg (by norm_num) hd)
    obtain ⟨b1, b2⟩ := clampDown s.petEnergy (5 * D) h4
      (mul_nonneg (by norm_num) hd)
    obtain ⟨c1, c2⟩ := clampDown s.petHappiness (15 * D) h2
      (mul_nonneg (by norm_num) hd)
    exact ⟨c1, c2, b1, b2, a1, a2⟩
  · apply checkHibernation_range
    have hm0 : (0:ℚ) ≤ m := le_trans (by norm_num) hfire
    have hd : (0:ℚ) ≤ D := by rw [hDdef]; exact div_nonneg hm0 (by norm_num)
    obtain ⟨a1, a2⟩ := clampUp s.petHunger (20 * D) h5
      (mul_nonneg (by norm_num) hd)
    obtain ⟨b1, b2⟩ := clampDown s.petEnergy (10 * D) h4
      (mul_nonneg (by norm_num) hd)
    obtain ⟨c1, c2⟩ := clampDown s.petHappiness (8 * D) h2
      (mul_nonneg (by norm_num) hd)
    obtain ⟨d1, d2⟩ := clampDown (max 0 (s.petHappiness - 8 * D)) (5 * D) c2
      (mul_nonneg (by norm_num) hd)
    exact ⟨d1, d2, b1, b2, a1, a2⟩
  · apply checkHibernation_range
    have hm0 : (0:ℚ) ≤ m := le_trans (by norm_num) hfire
    have hd : (0:ℚ) ≤ D := by rw [hDdef]; exact div_nonneg hm0 (by norm_num)
    obtain ⟨a1, a2⟩ := clampUp s.petHunger (20 * D) h5
      (mul_nonneg (by norm_num) hd)
    obtain ⟨b1, b2⟩ := clampDown s.petEnergy (10 * D) h4
      (mul_nonneg (by norm_num) hd)
    obtain ⟨c1, c2⟩ := clampDown s.petHappiness (8 * D) h2
      (mul_nonneg (by norm_num) hd)
    exact ⟨c1, c2, b1, b2, a1, a2⟩
  · exact ⟨h1, h2, h3, h4, h5, h6⟩

/-- The level, leftover xp and lifetime xp a level-up produces: the XP
required for the old level is subtracted, the level is incremented, and
totalXP is untouched. -/
theorem levelUp_proj (s : GameState) :
    (levelUp s).level = s.level + 1 ∧
    (levelUp s).xp = s.xp - getXPForLevel s.level ∧
    (levelUp s).totalXP = s.totalXP := by
  simp only [levelUp]
  refine ⟨?_, ?_, ?_⟩
  · rw [(checkAchievements_keeps _).1]
    dsimp only
    split_ifs with hc
    · exact (checkPetEvolution_keeps _).1
    · rfl
  · rw [(checkAchievements_keeps _).2.1]
    dsimp only
    split_ifs with hc
    · exact (checkPetEvolution_keeps _).2.1
    · rfl
  · rw [(checkAchievements_keeps _).2.2.1]
    dsimp only
    split_ifs with hc
    · exact (checkPetEvolution_keeps _).2.2.1
    · rfl

/-- A decay call whose stored petLastUpdate already equals now does
nothing: the elapsed time is zero, below the one-minute debounce. -/
theorem updatePetNeeds_noop (t : GameState) (now : ℚ)
    (h : t.petLastUpdate = now) : updatePetNeeds t now = t := by
  simp only [updatePetNeeds, h, ite_self, sub_self, zero_div]
  rw [if_neg (by norm_num : ¬ (1:ℚ) ≤ 0)]

/-- The streak and completion date updateStreak produces, as a function
of the prior completion day. -/
theorem updateStreak_streak (s : GameState) (today : Int) :
    (updateStreak s today).streak =
      (match s.lastCompletedDate with
       | some lastDay => if lastDay = today - 1 then s.streak + 1
                         else if lastDay ≠ today then 1 else s.streak
       | none => 1) ∧
    (updateStreak s today).lastCompletedDate = some today := by
  simp only [updateStreak]
  constructor
  · rw [(checkAchievements_keeps _).2.2.2.1]
    cases hld : s.lastCompletedDate with
    | none => rfl
    | some d =>
        dsimp only
        split_ifs <;> rfl
  · rw [(checkAchievements_keeps _).2.2.2.2.1]

/-- One pass of the achievement loop body for a row other than
pet_lover never changes whether pet_lover is unlocked. -/
theorem achievementStep_mem (st : GameState) (a : Achievement)
    (ha : a.id ≠ "pet_lover") :
    ("pet_lover" ∈ (achievementStep st a).achievements ↔
      "pet_lover" ∈ st.achievements) := by
  unfold achievementStep unlockAchievement
  split_ifs
  · exact Iff.rfl
  · constructor
    · intro hm
      rcases List.mem_append.mp hm with hm | hm
      · exact hm
      · exact absurd (List.mem_singleton.mp hm).symm ha
    · intro hm
      exact List.mem_append.mpr (Or.inl hm)
  · exact Iff.rfl

/-- C1 counterexample: levelUp from level 1 reaches level 2 without
running the evolution check, so petStage stays 0 even though the
highest evolution row with minLevel at most 2 has stage 1 (the
every-5-levels milestone branch is the only caller of
checkPetEvolution inside levelUp). -/
theorem levelUp_skips_evolution_check :
    (levelUp initialGameData).level = 2 ∧
    (levelUp initialGameData).petStage ≠
      (getPetEvolution (levelUp initialGameData).level).stage := by decide

/-- C1 (amended): after levelUp, when the new level is a multiple of 5
the evolution check runs, so petStage reaches the stage of the
evolution row with the greatest minLevel not exceeding the new level
(provided petStage did not already exceed it); for any other new level
the evolution check does not run and petStage is unchanged. -/
theorem levelUp_petStage_amended (s : GameState) :
    ((s.level + 1) % 5 = 0 →
      s.petStage ≤ (getPetEvolution (s.level + 1)).stage →
      (levelUp s).petStage = (getPetEvolution (s.level + 1)).stage) ∧
    ((s.level + 1) % 5 ≠ 0 → (levelUp s).petStage = s.petStage) := by
  simp only [levelUp]
  constructor
  · intro hc hle
    rw [(checkAchievements_keeps _).2.2.2.2.2.2.1]
    dsimp only
    rw [if_pos hc]
    simp only [checkPetEvolution]
    rcases lt_or_eq_of_le hle with hlt | heq
    · rw [if_pos hlt]
    · rw [if_neg (fun hcc => absurd hcc (by rw [heq]; exact lt_irrefl _))]
      exact heq
  · intro hc
    rw [(checkAchievements_keeps _).2.2.2.2.2.2.1]
    dsimp only
    rw [if_neg hc]

/-- C1 witness: leveling 4 to 5 evolves the pet to stage 2, while
leveling 1 to 2 leaves petStage at 0. -/
theorem levelUp_petStage_amended_witness :
    (levelUp { initialGameData with level := 4 }).petStage = 2 ∧
    (levelUp initialGameData).petStage = 0 :=
  ⟨((levelUp_petStage_amended { initialGameData with level := 4 }).1
      (by decide) (by decide)).trans (by decide),
   ((levelUp_petStage_amended initialGameData).2 (by decide)).trans
     (by decide)⟩

/-- C2: enterHibernation records the start timestamp, but
wakeFromHibernation clears only the hibernating flag; the source never
resets hibernationStartTime, so after waking it is still non-absent,
contradicting the claimed equivalence with petHibernating. -/
theorem wakeFromHibernation_keeps_start_time :
    (wakeFromHibernation hibernatingState).petHibernating = false ∧
    (wakeFromHibernation hibernatingState).hibernationStartTime = some 500 ∧
    (enterHibernation initialGameData 777).hibernationStartTime = some 777 ∧
    (enterHibernation initialGameData 777).petHibernating = true := by decide

/-- C3: every stat-mutating operation (decay tick, petting, feeding,
energy boost, level-up, achievement unlock, hibernation entry and
exit) keeps happiness, energy and hunger inside 0..100 when they start
inside 0..100. -/
theorem mutations_keep_stats_in_range (s : GameState) (a : Achievement)
    (now : ℚ) (h : statsInRange s) :
    statsInRange (updatePetNeeds s now) ∧
    statsInRange (petPet s now) ∧
    statsInRange (feedPet s) ∧
    statsInRange (boostPetEnergy s) ∧
    statsInRange (levelUp s) ∧
    statsInRange (unlockAchievement s a) ∧
    statsInRange (enterHibernation s now) ∧
    statsInRange (wakeFromHibernation s) ∧
    statsInRange (checkHibernation s now) :=
  ⟨updatePetNeeds_range s now h, petPet_range s now h, feedPet_range s h,
   boostPetEnergy_range s h, levelUp_range s h,
   unlockAchievement_range s a h, enterHibernation_range s now h,
   wakeFromHibernation_range s h, checkHibernation_range s now h⟩

/-- C3 witness: the range invariant evaluated at the default state for
a decay tick one hour later and for a petting call. -/
theorem mutations_keep_stats_in_range_witness :
    statsInRange (updatePetNeeds initialGameData 3600001) ∧
    statsInRange (petPet initialGameData 20000) :=
  ⟨(mutations_keep_stats_in_range initialGameData
      (⟨"first_task", "First Steps", "Complete 1 task", "🌟", 1, none⟩ :
        Achievement) 3600001 (by decide)).1,
   (mutations_keep_stats_in_range initialGameData
      (⟨"first_task", "First Steps", "Complete 1 task", "🌟", 1, none⟩ :
        Achievement) 20000 (by decide)).2.1⟩

/-- C4: checkHibernation is a hysteresis deadband: a hibernating pet
with energy strictly between 0 and 20 stays hibernating and wakes
exactly from 20 up, while an awake pet with energy strictly above 0
stays awake and falls asleep exactly from 0 down. -/
theorem checkHibernation_hysteresis (s : GameState) (now : ℚ) :
    (s.petHibernating = true → 0 < s.petEnergy → s.petEnergy < 20 →
      (checkHibernation s now).petHibernating = true) ∧
    (s.petHibernating = true → 20 ≤ s.petEnergy →
      (checkHibernation s now).petHibernating = false) ∧
    (s.petHibernating = false → 0 < s.petEnergy →
      (checkHibernation s now).petHibernating = false) ∧
    (s.petHibernating = false → s.petEnergy ≤ 0 →
      (checkHibernation s now).petHibernating = true) := by
  simp only [checkHibernation]
  refine ⟨?_, ?_, ?_, ?_⟩
  · intro hH h0 h20
    have hc1 : ¬ (s.petEnergy ≤ 0 ∧ s.petHibernating = false) :=
      fun hc => by rw [hH] at hc; exact absurd hc.2 (by simp)
    rw [if_neg hc1]
    rw [if_neg (fun hc : 20 ≤ s.petEnergy ∧ s.petHibernating = true =>
      absurd hc.1 (not_le.mpr h20))]
    exact hH
  · intro hH h20
    have hc1 : ¬ (s.petEnergy ≤ 0 ∧ s.petHibernating = false) :=
      fun hc => by rw [hH] at hc; exact absurd hc.2 (by simp)
    rw [if_neg hc1]
    rw [if_pos (⟨h20, hH⟩ : 20 ≤ s.petEnergy ∧ s.petHibernating = true)]
    rfl
  · intro hH h0
    have hc1 : ¬ (s.petEnergy ≤ 0 ∧ s.petHibernating = false) :=
      fun hc => absurd hc.1 (not_le.mpr h0)
    rw [if_neg hc1]
    rw [if_neg (fun hc : 20 ≤ s.petEnergy ∧ s.petHibernating = true =>
      by rw [hH] at hc; exact absurd hc.2 (by simp))]
    exact hH
  · intro hH h0
    rw [if_pos (⟨h0, hH⟩ : s.petEnergy ≤ 0 ∧ s.petHibernating = false)]
    rw [if_neg (fun hc : 20 ≤ (enterHibernation s now).petEnergy ∧
        (enterHibernation s now).petHibernating = true =>
      absurd hc.1 (not_le.mpr (lt_of_le_of_lt h0 (by norm_num))))]
    rfl

/-- C4 witness: inside the deadband (energy 10) a hibernating pet
stays hibernating; at energy 25 it wakes. -/
theorem checkHibernation_hysteresis_witness :
    (checkHibernation { hibernatingState with petEnergy := 10 }
      0).petHibernating = true ∧
    (checkHibernation hibernatingState 0).petHibernating = false :=
  ⟨(checkHibernation_hysteresis { hibernatingState with petEnergy := 10 }
      0).1 rfl (by decide) (by decide),
   (checkHibernation_hysteresis hibernatingState 0).2.1 rfl (by decide)⟩

/-- C5: with the pet hibernating, toggleTask returns before touching
anything: the game state and the task list are returned unchanged for
every task id (only the sleeping notice and sound are emitted). -/
theorem toggleTask_rejected_while_hibernating (s : GameState)
    (tasks : List Task) (id : Int) (now : ℚ) (today : Int)
    (h : s.petHibernating = true) :
    toggleTask s tasks id now today = some (s, tasks) := by
  simp [toggleTask, h]

/-- C5 witness: the hibernating test state rejects a completion
attempt without any change. -/
theorem toggleTask_rejected_while_hibernating_witness :
    toggleTask hibernatingState [] 7 0 0 = some (hibernatingState, []) :=
  toggleTask_rejected_while_hibernating hibernatingState [] 7 0 0 rfl

/-- C6 counterexample: with the pet awake and an id absent from the
task list, toggleTask does not terminate normally: the source
dereferences the undefined result of the find call at the expression
reading its completed flag and throws a TypeError, modelled as none. -/
theorem toggleTask_missing_id_not_benign :
    toggleTask initialGameData [] 0 0 0 = none := by decide

/-- C6 (amended): deleteTask on an absent task id is a benign no-op;
toggleTask on an absent id is a no-op returning normally only while
the pet hibernates, and otherwise throws a TypeError (without having
mutated the game state or the task list first). -/
theorem missing_task_id_behavior (s : GameState) (ts : List Task)
    (id : Int) (ok : Bool) (now : ℚ) (today : Int)
    (h : ∀ t ∈ ts, t.id ≠ id) :
    deleteTask ok ts id = ts ∧
    (s.petHibernating = false → toggleTask s ts id now today = none) ∧
    (s.petHibernating = true → toggleTask s ts id now today = some (s, ts)) := by
  have hfil : ts.filter (fun t => t.id != id) = ts :=
    List.filter_eq_self.mpr (fun a ha => by simpa using h a ha)
  have hfind : ts.find? (fun t => t.id == id) = none :=
    List.find?_eq_none.mpr (fun a ha => by simpa using h a ha)
  refine ⟨?_, ?_, ?_⟩
  · unfold deleteTask
    split_ifs
    · exact hfil
    · rfl
  · intro hawake
    simp [toggleTask, hfind, hawake]
  · intro hsleep
    simp [toggleTask, hsleep]

/-- C6 witness: deleting id 3 from the empty list is a no-op and a
completion attempt for id 3 with the pet awake fails as none. -/
theorem missing_task_id_behavior_witness :
    deleteTask true [] 3 = [] ∧ toggleTask initialGameData [] 3 0 0 = none :=
  ⟨(missing_task_id_behavior initialGameData [] 3 true 0 0 (by decide)).1,
   (missing_task_id_behavior initialGameData [] 3 true 0 0 (by decide)).2.1
     rfl⟩

/-- C7: addXP adds the amount to xp and totalXP and performs at most
one level-up: when the new xp reaches 100 + (level - 1) * 50 the level
rises by exactly one and that requirement is subtracted from xp,
otherwise level and xp move by the amount alone; from level 1 with xp
90, awarding 20 gives level 2 and xp 10. -/
theorem addXP_single_level_up (s : GameState) (amount : ℚ) :
    (addXP s amount).totalXP = s.totalXP + amount ∧
    (getXPForLevel s.level ≤ s.xp + amount →
      (addXP s amount).level = s.level + 1 ∧
      (addXP s amount).xp = s.xp + amount - getXPForLevel s.level) ∧
    (¬ getXPForLevel s.level ≤ s.xp + amount →
      (addXP s amount).level = s.level ∧
      (addXP s amount).xp = s.xp + amount) ∧
    (addXP { initialGameData with xp := 90 } 20).level = 2 ∧
    (addXP { initialGameData with xp := 90 } 20).xp = 10 := by
  have general : ∀ (t : GameState) (amt : ℚ),
      (addXP t amt).totalXP = t.totalXP + amt ∧
      (getXPForLevel t.level ≤ t.xp + amt →
        (addXP t amt).level = t.level + 1 ∧
        (addXP t amt).xp = t.xp + amt - getXPForLevel t.level) ∧
      (¬ getXPForLevel t.level ≤ t.xp + amt →
        (addXP t amt).level = t.level ∧
        (addXP t amt).xp = t.xp + amt) := by
    intro t amt
    obtain ⟨l1, l2, l3⟩ := levelUp_proj
      { t with xp := t.xp + amt, totalXP := t.totalXP + amt }
    simp only [addXP]
    refine ⟨?_, ?_, ?_⟩
    · split_ifs with hc
      · exact l3
      · rfl
    · intro h
      split_ifs
      exact ⟨l1, l2⟩
    · intro h
      split_ifs
      exact ⟨rfl, rfl⟩
  obtain ⟨b1, b2⟩ := (general { initialGameData with xp := 90 } 20).2.1
    (by show getXPForLevel 1 ≤ (90:ℚ) + 20; norm_num [getXPForLevel])
  exact ⟨(general s amount).1, (general s amount).2.1, (general s amount).2.2,
    b1.trans (by decide),
    b2.trans (by show (90:ℚ) + 20 - getXPForLevel 1 = 10
                 norm_num [getXPForLevel])⟩

/-- C7 witness: the leveling example evaluated through the theorem. -/
theorem addXP_single_level_up_witness :
    (addXP { initialGameData with xp := 90 } 20).level = 2 ∧
    (addXP { initialGameData with xp := 90 } 20).xp = 10 := by
  have h := (addXP_single_level_up { initialGameData with xp := 90 } 20).2.1
    (by show getXPForLevel 1 ≤ (90:ℚ) + 20; norm_num [getXPForLevel])
  refine ⟨h.1.trans (by decide), h.2.trans ?_⟩
  show (90:ℚ) + 20 - getXPForLevel 1 = 10
  norm_num [getXPForLevel]

/-- C8: running the decay function twice with the same now changes the
state at most once: a firing first call stores petLastUpdate = now, so
the second call sees less than one elapsed minute and does nothing,
and a non-firing first call already changed nothing. -/
theorem updatePetNeeds_idempotent (s : GameState) (now : ℚ) :
    updatePetNeeds (updatePetNeeds s now) now = updatePetNeeds s now := by
  by_cases hfire : (1:ℚ) ≤ (now - (if s.petLastUpdate = 0 then now
      else s.petLastUpdate)) / (1000 * 60)
  · have hlu : (updatePetNeeds s now).petLastUpdate = now := by
      simp only [updatePetNeeds]
      rw [if_pos hfire]
      exact ((checkHibernation_keeps _ now).2.2.2.2.2.2.2.2.2.2.1).trans rfl
    exact updatePetNeeds_noop _ now hlu
  · have h0 : updatePetNeeds s now = s := by
      simp only [updatePetNeeds]
      rw [if_neg hfire]
    rw [h0]
    exact h0

/-- C9: updateStreak follows the daily-streak rules (1 with no prior
day, increment from yesterday, unchanged from today, reset on a gap,
lastCompletedDate always set to today), and completing on days 0, 1
and 3 yields streaks 1, 2, 1. -/
theorem updateStreak_daily_rules (s : GameState) (today : Int) :
    (s.lastCompletedDate = none → (updateStreak s today).streak = 1) ∧
    (s.lastCompletedDate = some (today - 1) →
      (updateStreak s today).streak = s.streak + 1) ∧
    (s.lastCompletedDate = some today →
      (updateStreak s today).streak = s.streak) ∧
    (∀ d, s.lastCompletedDate = some d → d ≠ today - 1 → d ≠ today →
      (updateStreak s today).streak = 1) ∧
    (updateStreak s today).lastCompletedDate = some today ∧
    (updateStreak initialGameData 0).streak = 1 ∧
    (updateStreak (updateStreak initialGameData 0) 1).streak = 2 ∧
    (updateStreak (updateStreak (updateStreak initialGameData 0) 1)
      3).streak = 1 := by
  obtain ⟨hs, hd⟩ := updateStreak_streak s today
  refine ⟨?_, ?_, ?_, ?_, hd, by decide, by decide, by decide⟩
  · intro h
    rw [hs, h]
  · intro h
    rw [hs, h]
    dsimp only
    rw [if_pos rfl]
  · intro h
    rw [hs, h]
    dsimp only
    rw [if_neg (by omega : ¬ (today = today - 1))]
    rw [if_neg (fun hc => hc rfl)]
  · intro d h hd1 hd2
    rw [hs, h]
    dsimp only
    rw [if_neg hd1, if_pos hd2]

/-- C9 witness: a first completion on day 5 gives streak 1; with the
prior day recorded as 4 (yesterday), completing on day 5 gives
streak 4. -/
theorem updateStreak_daily_rules_witness :
    (updateStreak initialGameData 5).streak = 1 ∧
    (updateStreak { initialGameData with
                    lastCompletedDate := some 4,
                    streak := 3 } 5).streak = 4 :=
  ⟨(updateStreak_daily_rules initialGameData 5).1 rfl,
   ((updateStreak_daily_rules { initialGameData with
                                lastCompletedDate := some 4,
                                streak := 3 } 5).2.1
      (by decide)).trans (by decide)⟩

/-- C10: with pet_lover not yet unlocked, checkAchievements unlocks it
exactly when totalCompleted is at least 10 (its type falls to the
default totalCompleted branch of the predicate), and petPet changes
neither totalCompleted nor the unlocked set, so petting cannot unlock
it. -/
theorem pet_lover_unlocked_by_totalCompleted (s : GameState) (now : ℚ)
    (h : "pet_lover" ∉ s.achievements) :
    ("pet_lover" ∈ (checkAchievements s).achievements ↔
      10 ≤ s.totalCompleted) ∧
    (petPet s now).totalCompleted = s.totalCompleted ∧
    (petPet s now).achievements = s.achievements := by
  refine ⟨?_, ?_, ?_⟩
  · have hids : ∀ a ∈ nonPetAchievements, a.id ≠ "pet_lover" := by decide
    have hP := foldlPreserves
      (fun t => (("pet_lover" ∈ t.achievements) ↔
          ("pet_lover" ∈ s.achievements)) ∧
        t.totalCompleted = s.totalCompleted)
      achievementStep nonPetAchievements s ⟨Iff.rfl, rfl⟩
      (fun x a hmem hx =>
        ⟨(achievementStep_mem x a (hids a hmem)).trans hx.1,
         ((achievementStep_keeps x a).2.2.2.2.2.1).trans hx.2⟩)
    have hfold : checkAchievements s =
        achievementStep (List.foldl achievementStep s nonPetAchievements)
          petLoverAchievement := by
      have hsplit : achievements = nonPetAchievements ++ [petLoverAchievement] := by
        decide
      rw [checkAchievements, hsplit, List.foldl_append, List.foldl_cons,
        List.foldl_nil]
    rw [hfold]
    set T := List.foldl achievementStep s nonPetAchievements with hT
    obtain ⟨hmemiff, htc⟩ := hP
    have hnot : "pet_lover" ∉ T.achievements := fun hc => h (hmemiff.mp hc)
    have hunl : achievementUnlocked T petLoverAchievement =
        decide (10 ≤ s.totalCompleted) := by
      unfold achievementUnlocked
      rw [if_neg (by decide : ¬ (petLoverAchievement.type = some "streak"))]
      rw [if_neg (by decide : ¬ (petLoverAchievement.type = some "level"))]
      rw [htc]
      rfl
    unfold achievementStep
    rw [show petLoverAchievement.id = "pet_lover" from rfl]
    rw [if_neg hnot]
    by_cases hreq : 10 ≤ s.totalCompleted
    · rw [hunl]
      rw [if_pos (decide_eq_true hreq)]
      exact ⟨fun _ => hreq,
        fun _ => List.mem_append.mpr (Or.inr (List.mem_singleton.mpr rfl))⟩
    · rw [hunl]
      rw [if_neg (fun hc => hreq (of_decide_eq_true hc))]
      exact ⟨fun hc => absurd hc hnot, fun hc => absurd hc hreq⟩
  · simp only [petPet]
    split_ifs
    · rfl
    · exact ((checkHibernation_keeps _ now).2.2.2.2.2.1).trans rfl
    · exact ((checkHibernation_keeps _ now).2.2.2.2.2.1).trans rfl
  · simp only [petPet]
    split_ifs
    · rfl
    · exact ((checkHibernation_keeps _ now).2.2.2.2.2.2.2.2.2.1).trans rfl
    · exact ((checkHibernation_keeps _ now).2.2.2.2.2.2.2.2.2.1).trans rfl

/-- C10 witness: at ten completed tasks with pet_lover still locked,
the check unlocks it. -/
theorem pet_lover_unlocked_by_totalCompleted_witness :
    "pet_lover" ∈ (checkAchievements
      { initialGameData with totalCompleted := 10 }).achievements :=
  (pet_lover_unlocked_by_totalCompleted
    { initialGameData with totalCompleted := 10 } 0 (by decide)).1.mpr
    (by decide)

end TaskQuest
